import Mathlib

/-!
Shallow embedding of the replicated shard update core of `tyrchen/qdrant`:

* `src/lib/common/common/src/cpu.rs` — CPU budget sizing and permits;
* `src/lib/collection/src/shards/replica_set/update.rs` — the update
  dispatcher of `ShardReplicaSet`, leader selection, failure handling and
  deactivation coordination.

Pure functions are translated directly; the asynchronous fan-out is
modelled by an environment (`UpdateEnv`) supplying the per-replica update
outcome for each dispatched `(peer, wait)` call and the result of the
blocking `wait_for` on the replica-state table.  Machine integers are
modelled as `Nat`/`Int`; the one place a narrowing cast (`as u32`)
occurs is made explicit with `% 2 ^ 32`.
-/

namespace Qdrant

/-! ## CPU budget (`src/lib/common/common/src/cpu.rs`) -/

/-- `default_cpu_budget(num_cpu)` from `cpu.rs`: the automatically chosen
CPU-budget parameter, always negative (a number of CPUs to reserve). -/
def default_cpu_budget (num_cpu : Nat) : Int :=
  if num_cpu ≤ 32 then -1
  else if num_cpu ≤ 48 then -2
  else if num_cpu ≤ 64 then -3
  else if num_cpu ≤ 96 then -4
  else if num_cpu ≤ 128 then -6
  else -((num_cpu : Int) / 16)

/-- `get_cpu_budget(cpu_budget_param)` from `cpu.rs`.  The source reads the
CPU count through `get_num_cpus()` (environment/`num_cpus` crate); here the
count is a parameter `num_cpus`.  Negative parameter: saturating
subtraction from the CPU count, clamped to at least 1.  Zero: recurse with
the automatic (negative) default.  Positive: exactly that value. -/
def get_cpu_budget (num_cpus : Nat) (p : Int) : Nat :=
  if p < 0 then max (num_cpus - p.natAbs) 1
  else if h0 : p = 0 then get_cpu_budget num_cpus (default_cpu_budget num_cpus)
  else p.toNat
termination_by (if p = 0 then 1 else 0 : Nat)
decreasing_by
  have h : default_cpu_budget num_cpus < 0 := by
    unfold default_cpu_budget
    repeat' split
    all_goals try decide
    rename_i h1 h2 h3 h4 h5
    omega
  have hne : default_cpu_budget num_cpus ≠ 0 := by omega
  simp [hne, h0]

/-- The semaphore backing `CpuBudget`, modelled by its count of available
permits (`Semaphore::available_permits`). -/
structure CpuBudget where
  available_permits : Nat
deriving DecidableEq, Repr

/-- `CpuBudget::try_acquire(desired_cpus)` from `cpu.rs`.  Computes
`num_cpus = available_permits.min(desired_cpus) as u32` (the `as u32`
narrowing is the `% 2 ^ 32`), returns `none` when that is zero, and
otherwise acquires exactly `num_cpus` permits from the semaphore.  The
returned pair is the permit's `num_cpus` field together with the
semaphore after the acquisition. -/
def CpuBudget.try_acquire (b : CpuBudget) (desired_cpus : Nat) :
    Option (Nat × CpuBudget) :=
  let num_cpus := min b.available_permits desired_cpus % 2 ^ 32
  if num_cpus = 0 then none
  else some (num_cpus, ⟨b.available_permits - num_cpus⟩)

/-- `CpuBudget::has_budget` from `cpu.rs`. -/
def CpuBudget.has_budget (b : CpuBudget) : Bool :=
  decide (0 < b.available_permits)

/-- The reservation table exactly as the spec words it (spec §4.1): the
number of CPUs reserved for foreground work under automatic selection.
Stated spec-side, to be compared with `default_cpu_budget` from the
source. -/
def spec_reserved_cpus (n : Nat) : Nat :=
  if n ≤ 32 then 1
  else if n ≤ 48 then 2
  else if n ≤ 64 then 3
  else if n ≤ 96 then 4
  else if n ≤ 128 then 6
  else n / 16


/-! ## Replica set data model (`src/lib/collection/src/shards/replica_set/update.rs`)

`PeerId` is a 64-bit unsigned integer in the source; arithmetic on it is
never performed, only comparison, so `Nat` is a faithful model. -/

abbrev PeerId := Nat

/-- `ReplicaState` from the replica-set module (declared outside `src/`;
its variants are taken from the `match`es in `update.rs` and the spec's
data model §3). -/
inductive ReplicaState where
  | Active
  | Dead
  | Partial
  | Initializing
  | Listener
  | PartialSnapshot
deriving DecidableEq, Repr

/-- The `peers` map of `ReplicaSetState`, modelled as an association list
with the usual leftmost-lookup semantics. -/
structure ReplicaSetState where
  peers : List (PeerId × ReplicaState)
deriving DecidableEq, Repr

/-- `ReplicaSetState::get_peer_state`: lookup in the `peers` map. -/
def ReplicaSetState.get_peer_state (s : ReplicaSetState) (peer_id : PeerId) :
    Option ReplicaState :=
  (s.peers.find? (fun q => q.1 == peer_id)).map (fun q => q.2)

/-- `UpdateResult` is opaque to the dispatcher (it is produced and
consumed by the storage layer); an abstract token suffices. -/
abbrev UpdateResult := Nat

/-- `CollectionError`, restricted to what the dispatcher distinguishes:
its own `service_error` messages versus errors coming back from replicas,
of which only `is_transient()` and identity are observed.  `code`
makes distinct replica errors distinguishable. -/
inductive CollectionError where
  | service_error (msg : String)
  | replica_error (transient : Bool) (code : Nat)
deriving DecidableEq, Repr

/-- Modelled from the spec (§6 error classification): `is_transient` on
replica errors is the stored flag; `CollectionError::is_transient` itself
is declared outside `src/`.  Service errors count as transient there
(spec: "resource exhaustion that may self-heal"); the dispatcher in
`update.rs` only consults the flag on errors returned by replicas. -/
def CollectionError.is_transient : CollectionError → Bool
  | .service_error _ => true
  | .replica_error t _ => t

/-- The fields of `ShardReplicaSet` that the update path reads or writes.
`hasLocal` is `local.is_some()`; `remotes` carries the remote peer ids in
iteration order; `write_consistency_factor` is the configured `NonZero`
value (the source reads it through the collection config lock). -/
structure ShardReplicaSet where
  this_peer_id : PeerId
  replica_state : ReplicaSetState
  locally_disabled : List PeerId
  hasLocal : Bool
  remotes : List PeerId
  write_consistency_factor : Nat
deriving DecidableEq, Repr

/-- Modelled from the spec (§3, §4.3): `peer_state` reads the replica
state table; declared outside `src/`. -/
def ShardReplicaSet.peer_state (rs : ShardReplicaSet) (peer_id : PeerId) :
    Option ReplicaState :=
  rs.replica_state.get_peer_state peer_id

/-- Modelled from the spec (§4.3): membership in the local-disable
overlay; declared outside `src/`. -/
def ShardReplicaSet.is_locally_disabled (rs : ShardReplicaSet) (peer_id : PeerId) : Bool :=
  rs.locally_disabled.contains peer_id

/-- Modelled from the spec (§4.3): `add_locally_disabled` records the
peer in the overlay (and notifies consensus through an external callback,
outside the model); declared outside `src/`. -/
def ShardReplicaSet.add_locally_disabled (rs : ShardReplicaSet) (peer_id : PeerId) :
    ShardReplicaSet :=
  { rs with locally_disabled := peer_id :: rs.locally_disabled }

/-- Modelled from the spec (§4.4): `peer_is_active(peer)` ⇔ the state is
`Active` and the peer is not locally disabled; declared outside `src/`. -/
def ShardReplicaSet.peer_is_active (rs : ShardReplicaSet) (peer_id : PeerId) : Bool :=
  (rs.peer_state peer_id == some ReplicaState.Active) && !(rs.is_locally_disabled peer_id)

/-- `ShardReplicaSet::peer_is_active_or_pending` from `update.rs`. -/
def ShardReplicaSet.peer_is_active_or_pending (rs : ShardReplicaSet) (peer_id : PeerId) : Bool :=
  (match rs.peer_state peer_id with
   | some ReplicaState.Active => true
   | some ReplicaState.Partial => true
   | some ReplicaState.Initializing => true
   | some ReplicaState.Dead => false
   | some ReplicaState.Listener => true
   | some ReplicaState.PartialSnapshot => false
   | none => false) && !(rs.is_locally_disabled peer_id)

/-- `WriteOrdering` from `point_ops.rs` (outside `src/`; variants are
fixed by the `match`es in `update.rs`). -/
inductive WriteOrdering where
  | Weak
  | Medium
  | Strong
deriving DecidableEq, Repr

/-- `ShardReplicaSet::highest_alive_replica_peer_id` from `update.rs`:
the maximum over the state-table keys that satisfy `peer_is_active`. -/
def ShardReplicaSet.highest_alive_replica_peer_id (rs : ShardReplicaSet) : Option PeerId :=
  ((rs.replica_state.peers.map (fun q => q.1)).filter
    (fun peer_id => rs.peer_is_active peer_id)).max?

/-- `ShardReplicaSet::highest_replica_peer_id` from `update.rs`: the
maximum over all state-table keys. -/
def ShardReplicaSet.highest_replica_peer_id (rs : ShardReplicaSet) : Option PeerId :=
  (rs.replica_state.peers.map (fun q => q.1)).max?

/-- `ShardReplicaSet::leader_peer_for_update` from `update.rs`. -/
def ShardReplicaSet.leader_peer_for_update (rs : ShardReplicaSet) :
    WriteOrdering → Option PeerId
  | WriteOrdering.Weak => some rs.this_peer_id
  | WriteOrdering.Medium => rs.highest_alive_replica_peer_id
  | WriteOrdering.Strong => rs.highest_replica_peer_id

/-! ## The update dispatcher -/

/-- `DEFAULT_SHARD_DEACTIVATION_TIMEOUT` from `update.rs`, in seconds. -/
def DEFAULT_SHARD_DEACTIVATION_TIMEOUT : Nat := 30

/-- Message of the "has no active replica" service error (`update.rs`,
dispatch guard).  Shard and peer ids elided. -/
def noActiveReplicaMsg : String :=
  "The replica set for shard on peer has no active replica"

/-- Message prefix of the deactivation-timeout service error
(`update.rs`).  Shard id and seconds elided. -/
def deactivationTimeoutMsg : String :=
  "Some replica of shard failed to apply operation and deactivation timed out after 30 seconds. Consistency of this update is not guaranteed. Please retry. "

/-- Message prefix of the "no Active replica succeeded" service error
(`update.rs`). -/
def noActiveSuccessMsg : String :=
  "Failed to apply operation to at least one Active replica. Consistency of this update is not guaranteed. Please retry. "

/-- The `failure_error` string built in `update.rs` from the first
failure (error display elided, peer id kept). -/
def failure_error_of (failures : List (PeerId × CollectionError)) : String :=
  match failures.head? with
  | some (peer_id, _) => "Failed peer: " ++ toString peer_id
  | none => ""

/-- The closure handed to `replica_state.wait_for` in `update.rs`: every
failing peer is no longer `Active`, a missing entry counting as
satisfied ("not found means that peer is dead"). -/
def deactivation_check (peer_ids : List PeerId) (state : ReplicaSetState) : Bool :=
  peer_ids.all fun peer_id =>
    ((state.get_peer_state peer_id).map (fun st => st != ReplicaState.Active)).getD true

/-- `ShardReplicaSet::handle_failed_replicas` from `update.rs`, with the
mutation of `locally_disabled` made explicit in the returned
`ShardReplicaSet`.  `state` is the snapshot of the replica-state table
taken by the caller. -/
def ShardReplicaSet.handle_failed_replicas :
    ShardReplicaSet → List (PeerId × CollectionError) → ReplicaSetState →
    Bool × ShardReplicaSet
  | rs, [], _ => (false, rs)
  | rs, (peer_id, err) :: rest, state =>
    match state.get_peer_state peer_id with
    | none => rs.handle_failed_replicas rest state
    | some peer_state =>
      if peer_state ≠ ReplicaState.Active ∧ peer_state ≠ ReplicaState.Initializing then
        rs.handle_failed_replicas rest state
      else
        let step := (rs.add_locally_disabled peer_id).handle_failed_replicas rest state
        ((err.is_transient || peer_state == ReplicaState.Initializing) || step.1, step.2)

/-- The fan-out built in `ShardReplicaSet::update`: the local replica
first (when present and active-or-pending, with `wait` forced to `false`
for a `Listener` local), then every active-or-pending remote with the
caller's `wait`.  Completion order of the futures is modelled as dispatch
order. -/
def ShardReplicaSet.update_calls (rs : ShardReplicaSet) (wait : Bool) :
    List (PeerId × Bool) :=
  (if rs.hasLocal && rs.peer_is_active_or_pending rs.this_peer_id then
    [(rs.this_peer_id,
      if rs.peer_state rs.this_peer_id == some ReplicaState.Listener then false else wait)]
  else []) ++
  ((rs.remotes.filter (fun peer_id => rs.peer_is_active_or_pending peer_id)).map
    (fun peer_id => (peer_id, wait)))

/-- The environment of one `update` run: `res peer wait` is the outcome
of that replica's `update(op, wait)` call, and `wait_for pred timeout` is
the result of the blocking `replica_state.wait_for(pred, timeout)`
(whether the predicate held before the deadline). -/
structure UpdateEnv where
  res : PeerId → Bool → Except CollectionError UpdateResult
  wait_for : (ReplicaSetState → Bool) → Nat → Bool

/-- `all_res` of `ShardReplicaSet::update`: each dispatched call tagged
with its peer id. -/
def ShardReplicaSet.all_results (rs : ShardReplicaSet) (env : UpdateEnv) (wait : Bool) :
    List (PeerId × Except CollectionError UpdateResult) :=
  (rs.update_calls wait).map (fun pw => (pw.1, env.res pw.1 pw.2))

/-- The `successes` side of `partition_result` (order preserved). -/
def successes_of (l : List (PeerId × Except CollectionError UpdateResult)) :
    List (PeerId × UpdateResult) :=
  l.filterMap fun pr =>
    match pr.2 with
    | Except.ok res => some (pr.1, res)
    | Except.error _ => none

/-- The `failures` side of `partition_result` (order preserved). -/
def failures_of (l : List (PeerId × Except CollectionError UpdateResult)) :
    List (PeerId × CollectionError) :=
  l.filterMap fun pr =>
    match pr.2 with
    | Except.ok _ => none
    | Except.error e => some (pr.1, e)

/-- `min` of `write_consistency_factor` and the number of results, the
`minimal_success_count` of `ShardReplicaSet::update`. -/
def ShardReplicaSet.minimal_success_count (rs : ShardReplicaSet) (wait : Bool) : Nat :=
  min rs.write_consistency_factor (rs.update_calls wait).length

/-- The quorum-met block of `ShardReplicaSet::update` (lines 208–244 of
`update.rs`): when the success count reaches `minimal_success_count`, run
`handle_failed_replicas` and, if `wait ∧ wait_for_deactivation ∧ failures
≠ ∅`, block on the replica-state table with the 30-second timeout.
Returns the early-exit error (if the wait timed out) and the replica set
with its grown `locally_disabled`. -/
def ShardReplicaSet.quorum_stage (rs : ShardReplicaSet) (env : UpdateEnv) (wait : Bool) :
    Option CollectionError × ShardReplicaSet :=
  let all_res := rs.all_results env wait
  let successes := successes_of all_res
  let failures := failures_of all_res
  if min rs.write_consistency_factor all_res.length ≤ successes.length then
    let step := rs.handle_failed_replicas failures rs.replica_state
    if wait && step.1 && !failures.isEmpty then
      if env.wait_for (deactivation_check (failures.map (fun pe => pe.1)))
          DEFAULT_SHARD_DEACTIVATION_TIMEOUT then
        (none, step.2)
      else
        (some (CollectionError.service_error
            (deactivationTimeoutMsg ++ failure_error_of failures)),
         step.2)
    else (none, step.2)
  else (none, rs)

/-- The tail of `ShardReplicaSet::update` (lines 246–268 of `update.rs`):
the quorum-miss first-failure error, the "some success from an `Active`
peer" check against the current replica set `rs2`, and the first
successful result.  The two `"... is not empty"` errors model the
source's `expect`s and are unreachable. -/
def ShardReplicaSet.finalize (rs2 : ShardReplicaSet)
    (successes : List (PeerId × UpdateResult))
    (failures : List (PeerId × CollectionError))
    (minimal_success_count : Nat) :
    Except CollectionError UpdateResult × ShardReplicaSet :=
  if !failures.isEmpty && successes.length < minimal_success_count then
    match failures with
    | (_, err) :: _ => (Except.error err, rs2)
    | [] => (Except.error (CollectionError.service_error "failures is not empty"), rs2)
  else if !(successes.any (fun pr => rs2.peer_is_active pr.1)) then
    (Except.error (CollectionError.service_error
        (noActiveSuccessMsg ++ failure_error_of failures)), rs2)
  else
    match successes with
    | (_, res) :: _ => (Except.ok res, rs2)
    | [] => (Except.error (CollectionError.service_error "successes is not empty"), rs2)

/-- Everything `ShardReplicaSet::update` does after the fan-out has been
collected: the quorum-met block, then the final checks. -/
def ShardReplicaSet.update_collect (rs : ShardReplicaSet) (env : UpdateEnv) (wait : Bool) :
    Except CollectionError UpdateResult × ShardReplicaSet :=
  let all_res := rs.all_results env wait
  match rs.quorum_stage env wait with
  | (some e, rs2) => (Except.error e, rs2)
  | (none, rs2) =>
    rs2.finalize (successes_of all_res) (failures_of all_res)
      (min rs.write_consistency_factor all_res.length)

/-- `ShardReplicaSet::update` from `update.rs`: the guard that at least
one replica can receive the update, then the collected fan-out.  The two
`"... is not empty"` branches of `update_collect` model the source's
`expect`s and are unreachable. -/
def ShardReplicaSet.update (rs : ShardReplicaSet) (env : UpdateEnv) (wait : Bool) :
    Except CollectionError UpdateResult × ShardReplicaSet :=
  if (rs.remotes.filter (fun peer_id => rs.peer_is_active_or_pending peer_id)).isEmpty
      && !(rs.hasLocal && rs.peer_is_active_or_pending rs.this_peer_id) then
    (Except.error (CollectionError.service_error noActiveReplicaMsg), rs)
  else
    rs.update_collect env wait

/-! ## Spec-side predicates

These two follow the wording of spec §4.6 (deactivation coordinator) and
exist to be compared with `handle_failed_replicas` from the source. -/

/-- Spec §4.6 steps 2–3 and 5: a failing peer is recorded in
`locally_disabled` iff its snapshot state is present and is `Active` or
`Initializing`. -/
def spec_disables (state : ReplicaSetState) (pe : PeerId × CollectionError) : Bool :=
  match state.get_peer_state pe.1 with
  | some st => st == ReplicaState.Active || st == ReplicaState.Initializing
  | none => false

/-- Spec §4.6 step 4: a failing peer forces `wait_for_deactivation` iff it
is not skipped and the error is transient or the state is
`Initializing`. -/
def spec_forces_wait (state : ReplicaSetState) (pe : PeerId × CollectionError) : Bool :=
  match state.get_peer_state pe.1 with
  | some st =>
    (st == ReplicaState.Active || st == ReplicaState.Initializing) &&
      (pe.2.is_transient || st == ReplicaState.Initializing)
  | none => false

/-! ## Concrete replica sets and environments used by the witnesses -/

/-- Spec seed scenario 5: `n = 3`, `W = 2`, successes on the `Partial`
local and the `Initializing` remote, transient failure on the `Active`
remote. -/
def rsC1 : ShardReplicaSet :=
  ⟨1, ⟨[(1, ReplicaState.Partial), (2, ReplicaState.Initializing), (3, ReplicaState.Active)]⟩,
    [], true, [2, 3], 2⟩

/-- Environment for `rsC1`: peer 3 fails transiently, the rest succeed;
the deactivation wait succeeds. -/
def envC1 : UpdateEnv :=
  ⟨fun p _ => if p == 3 then Except.error (CollectionError.replica_error true 9)
    else Except.ok 7,
   fun _ _ => true⟩

/-- A single `Active` local replica. -/
def rsC1b : ShardReplicaSet := ⟨1, ⟨[(1, ReplicaState.Active)]⟩, [], true, [], 1⟩

/-- Environment for `rsC1b`: the local update succeeds. -/
def envC1b : UpdateEnv := ⟨fun _ _ => Except.ok 5, fun _ _ => true⟩

/-- Three `Active` replicas, `W = 2`. -/
def rsC2 : ShardReplicaSet :=
  ⟨1, ⟨[(1, ReplicaState.Active), (2, ReplicaState.Active), (3, ReplicaState.Active)]⟩,
    [], true, [2, 3], 2⟩

/-- Environment for `rsC2`: every replica fails transiently with a
distinct error. -/
def envC2 : UpdateEnv :=
  ⟨fun p _ => Except.error (CollectionError.replica_error true (10 + p)), fun _ _ => true⟩

/-- An `Active` local and a `Listener` remote. -/
def rsC3 : ShardReplicaSet :=
  ⟨1, ⟨[(1, ReplicaState.Active), (2, ReplicaState.Listener)]⟩, [], true, [2], 1⟩

/-- Spec seed scenario 6 shape: three `Active` replicas, `W = 2`. -/
def rsC4 : ShardReplicaSet :=
  ⟨1, ⟨[(1, ReplicaState.Active), (2, ReplicaState.Active), (3, ReplicaState.Active)]⟩,
    [], true, [2, 3], 2⟩

/-- Environment for `rsC4`: peer 3 fails transiently and the deactivation
wait times out. -/
def envC4 : UpdateEnv :=
  ⟨fun p _ => if p == 3 then Except.error (CollectionError.replica_error true 9)
    else Except.ok 7,
   fun _ _ => false⟩

/-- The repo test scenario after activation: states
`{1: Active, 2: Dead, 3: Active, 4: Active, 5: Partial}`. -/
def rsC6 : ShardReplicaSet :=
  ⟨1, ⟨[(1, ReplicaState.Active), (2, ReplicaState.Dead), (3, ReplicaState.Active),
        (4, ReplicaState.Active), (5, ReplicaState.Partial)]⟩,
    [], true, [2, 3, 4, 5], 2⟩

/-- No local shard and a single `Dead` remote: no eligible target. -/
def rsC7 : ShardReplicaSet := ⟨1, ⟨[(2, ReplicaState.Dead)]⟩, [], false, [2], 2⟩

/-- An environment for `rsC7`. -/
def envC7 : UpdateEnv := ⟨fun _ _ => Except.ok 0, fun _ _ => true⟩

/-- A second, observably different environment for `rsC7`. -/
def envC7b : UpdateEnv :=
  ⟨fun _ _ => Except.error (CollectionError.replica_error false 1), fun _ _ => false⟩

/-- Quorum-miss scenario for the frame claim: three `Active` replicas,
`W = 2`, every replica fails. -/
def rsC10 : ShardReplicaSet :=
  ⟨1, ⟨[(1, ReplicaState.Active), (2, ReplicaState.Active), (3, ReplicaState.Active)]⟩,
    [], true, [2, 3], 2⟩

/-- Environment for `rsC10`: every replica fails transiently. -/
def envC10 : UpdateEnv :=
  ⟨fun p _ => Except.error (CollectionError.replica_error true (20 + p)), fun _ _ => true⟩

/-! ## Theorems: CPU budget (claims C8, C9) -/

theorem default_cpu_budget_neg (num_cpu : Nat) : default_cpu_budget num_cpu < 0 := by
  unfold default_cpu_budget
  repeat' split
  all_goals try decide
  rename_i h1 h2 h3 h4 h5
  omega

theorem default_cpu_budget_natAbs (n : Nat) :
    (default_cpu_budget n).natAbs = spec_reserved_cpus n := by
  unfold default_cpu_budget spec_reserved_cpus
  repeat' split
  all_goals try decide
  all_goals omega

theorem get_cpu_budget_of_neg (N : Nat) (P : Int) (h : P < 0) :
    get_cpu_budget N P = max (N - P.natAbs) 1 := by
  unfold get_cpu_budget
  rw [if_pos h]

theorem get_cpu_budget_of_pos (N : Nat) (P : Int) (h : 0 < P) :
    get_cpu_budget N P = P.toNat := by
  unfold get_cpu_budget
  rw [if_neg (by omega), dif_neg (by omega)]

theorem get_cpu_budget_of_zero (N : Nat) :
    get_cpu_budget N 0 = max (N - spec_reserved_cpus N) 1 := by
  unfold get_cpu_budget
  rw [if_neg (by omega), dif_pos rfl,
    get_cpu_budget_of_neg N _ (default_cpu_budget_neg N), default_cpu_budget_natAbs]

/-- C8: `get_cpu_budget` returns `P` exactly when `P > 0`; `max 1 (N − |P|)`
when `P < 0`; and for `P = 0` the automatic rule `max 1 (N − reserved)`
where `reserved` follows the 32/48/64/96/128 table with `⌊N/16⌋` above
128; the result is always at least 1. -/
theorem get_cpu_budget_matches_spec (N : Nat) (P : Int) :
    get_cpu_budget N P =
      (if 0 < P then P.toNat
       else if P = 0 then max 1 (N - spec_reserved_cpus N)
       else max 1 (N - P.natAbs)) ∧
    1 ≤ get_cpu_budget N P := by
  have hmain : get_cpu_budget N P =
      (if 0 < P then P.toNat
       else if P = 0 then max 1 (N - spec_reserved_cpus N)
       else max 1 (N - P.natAbs)) := by
    rcases lt_trichotomy P 0 with h | h | h
    · rw [get_cpu_budget_of_neg N P h, if_neg (by omega), if_neg (by omega)]
      exact Nat.max_comm _ _
    · subst h
      rw [get_cpu_budget_of_zero N, if_neg (by omega), if_pos rfl]
      exact Nat.max_comm _ _
    · rw [get_cpu_budget_of_pos N P h, if_pos h]
  refine ⟨hmain, ?_⟩
  rw [hmain]
  split
  · rename_i h
    omega
  · split <;> omega

/-- C9 counterexample: with one available permit and `desired = 0`,
`try_acquire` returns `none` although the number of available permits is
not zero — refuting "returns `None` if and only if zero permits are
available". -/
theorem try_acquire_none_despite_budget :
    (CpuBudget.mk 1).try_acquire 0 = none ∧ (CpuBudget.mk 1).available_permits ≠ 0 := by
  exact ⟨rfl, by decide⟩

/-- C9 (amended): `try_acquire(desired)` returns `none` iff
`min(available_permits, desired) mod 2^32 = 0` (in particular whenever no
permit is available or `desired = 0`); otherwise it returns a permit
carrying `num_cpus = min(available_permits, desired) mod 2^32 ≥ 1` slots,
removed from the semaphore in one step. -/
theorem try_acquire_characterization (b : CpuBudget) (d : Nat) :
    (b.try_acquire d = none ↔ min b.available_permits d % 2 ^ 32 = 0) ∧
    ∀ n b', b.try_acquire d = some (n, b') →
      n = min b.available_permits d % 2 ^ 32 ∧
      b'.available_permits = b.available_permits - n ∧ 1 ≤ n := by
  constructor
  · simp only [CpuBudget.try_acquire]
    split <;> simp_all
  · intro n b' h
    simp only [CpuBudget.try_acquire] at h
    split at h
    · cases h
    · rename_i hne
      rw [Option.some.injEq, Prod.mk.injEq] at h
      obtain ⟨h1, h2⟩ := h
      subst h1
      subst h2
      exact ⟨rfl, rfl, by omega⟩

/-- Witness for C9 (amended): a concrete acquisition, `available = 3`,
`desired = 2`, yields the permit size `min 3 2 mod 2^32 = 2` and leaves
one permit. -/
theorem try_acquire_characterization_witness :
    2 = min (CpuBudget.mk 3).available_permits 2 % 2 ^ 32 ∧
    (CpuBudget.mk 1).available_permits = (CpuBudget.mk 3).available_permits - 2 ∧
    1 ≤ 2 :=
  (try_acquire_characterization (CpuBudget.mk 3) 2).2 2 (CpuBudget.mk 1) rfl

/-! ## Helper lemmas about the replica-set model -/

theorem get_peer_state_mem_keys (s : ReplicaSetState) (q : PeerId) (st : ReplicaState)
    (h : s.get_peer_state q = some st) : q ∈ s.peers.map (fun pr => pr.1) := by
  unfold ReplicaSetState.get_peer_state at h
  cases hf : s.peers.find? (fun pr => pr.1 == q) with
  | none => rw [hf] at h; cases h
  | some pr =>
    have hmem := List.mem_of_find?_eq_some hf
    have hpred := List.find?_some hf
    have hpq : pr.1 = q := by simpa using hpred
    subst hpq
    exact List.mem_map.mpr ⟨pr, hmem, rfl⟩

theorem peer_is_active_eq_true_iff (rs : ShardReplicaSet) (q : PeerId) :
    rs.peer_is_active q = true ↔
      rs.peer_state q = some ReplicaState.Active ∧ rs.is_locally_disabled q = false := by
  unfold ShardReplicaSet.peer_is_active
  cases h : rs.peer_state q <;> simp [h, beq_iff_eq]

theorem nat_max?_eq_some_iff (l : List Nat) (a : Nat) :
    l.max? = some a ↔ a ∈ l ∧ ∀ b ∈ l, b ≤ a :=
  List.max?_eq_some_iff (fun x => Nat.le_refl x)
    (fun x y => by omega)
    (fun x y z => by omega)

theorem successes_failures_length (l : List (PeerId × Except CollectionError UpdateResult)) :
    (successes_of l).length + (failures_of l).length = l.length := by
  induction l with
  | nil => rfl
  | cons hd tl ih =>
    obtain ⟨p, r⟩ := hd
    cases r <;> simp [successes_of, failures_of, List.filterMap_cons] at * <;> omega

theorem all_results_length (rs : ShardReplicaSet) (env : UpdateEnv) (wait : Bool) :
    (rs.all_results env wait).length = (rs.update_calls wait).length := by
  simp [ShardReplicaSet.all_results]

theorem update_guard_iff (rs : ShardReplicaSet) (wait : Bool) :
    (((rs.remotes.filter (fun peer_id => rs.peer_is_active_or_pending peer_id)).isEmpty
      && !(rs.hasLocal && rs.peer_is_active_or_pending rs.this_peer_id)) = true)
      ↔ rs.update_calls wait = [] := by
  unfold ShardReplicaSet.update_calls
  cases hl : rs.hasLocal && rs.peer_is_active_or_pending rs.this_peer_id <;>
    cases hr : rs.remotes.filter (fun peer_id => rs.peer_is_active_or_pending peer_id) <;>
      simp [hl, hr]

theorem handle_failed_replicas_fields (failures : List (PeerId × CollectionError)) :
    ∀ (rs : ShardReplicaSet) (state : ReplicaSetState),
      (rs.handle_failed_replicas failures state).2.replica_state = rs.replica_state ∧
      (rs.handle_failed_replicas failures state).2.this_peer_id = rs.this_peer_id := by
  induction failures with
  | nil => intro rs state; exact ⟨rfl, rfl⟩
  | cons hd rest ih =>
    intro rs state
    obtain ⟨peer_id, err⟩ := hd
    simp only [ShardReplicaSet.handle_failed_replicas]
    split
    · exact ih rs state
    · split
      · exact ih rs state
      · have h := ih (rs.add_locally_disabled peer_id) state
        simpa [ShardReplicaSet.add_locally_disabled] using h

theorem handle_failed_replicas_wait_eq (failures : List (PeerId × CollectionError)) :
    ∀ (rs : ShardReplicaSet) (state : ReplicaSetState),
      (rs.handle_failed_replicas failures state).1 =
        failures.any (spec_forces_wait state) := by
  induction failures with
  | nil => intro rs state; rfl
  | cons hd rest ih =>
    intro rs state
    obtain ⟨peer_id, err⟩ := hd
    simp only [ShardReplicaSet.handle_failed_replicas, List.any_cons]
    split
    · rename_i heq
      simp [spec_forces_wait, heq, ih rs state]
    · rename_i peer_state heq
      split
      · rename_i hskip
        have hzero : spec_forces_wait state (peer_id, err) = false := by
          simp only [spec_forces_wait, heq]
          obtain ⟨h1, h2⟩ := hskip
          cases peer_state <;> simp_all
        simp [hzero, ih rs state]
      · rename_i hkeep
        rw [not_and_or] at hkeep
        simp only [not_not] at hkeep
        rcases hkeep with h | h <;> subst h <;>
          simp [spec_forces_wait, heq, ih]

theorem is_locally_disabled_add (rs : ShardReplicaSet) (peer_id p : PeerId) :
    (rs.add_locally_disabled peer_id).is_locally_disabled p =
      ((p == peer_id) || rs.is_locally_disabled p) := by
  by_cases h : p = peer_id <;>
    simp [ShardReplicaSet.add_locally_disabled, ShardReplicaSet.is_locally_disabled,
      List.contains_cons, h]

theorem handle_failed_replicas_disabled_eq (failures : List (PeerId × CollectionError)) :
    ∀ (rs : ShardReplicaSet) (state : ReplicaSetState) (p : PeerId),
      (rs.handle_failed_replicas failures state).2.is_locally_disabled p =
        (rs.is_locally_disabled p ||
          failures.any (fun pe => p == pe.1 && spec_disables state pe)) := by
  induction failures with
  | nil =>
    intro rs state p
    simp [ShardReplicaSet.handle_failed_replicas]
  | cons hd rest ih =>
    intro rs state p
    obtain ⟨peer_id, err⟩ := hd
    simp only [ShardReplicaSet.handle_failed_replicas, List.any_cons]
    split
    · rename_i heq
      simp [spec_disables, heq, ih rs state p]
    · rename_i peer_state heq
      split
      · rename_i hskip
        have hzero : spec_disables state (peer_id, err) = false := by
          simp only [spec_disables, heq]
          obtain ⟨h1, h2⟩ := hskip
          cases peer_state <;> simp_all
        simp [hzero, ih rs state p]
      · rename_i hkeep
        rw [not_and_or] at hkeep
        simp only [not_not] at hkeep
        have hone : spec_disables state (peer_id, err) = true := by
          simp only [spec_disables, heq]
          rcases hkeep with h | h <;> subst h <;> simp
        have hrec := ih (rs.add_locally_disabled peer_id) state p
        simp only [hrec, is_locally_disabled_add, hone]
        cases hpq : p == peer_id <;>
          cases hd2 : rs.is_locally_disabled p <;> simp [hd2, hpq]

theorem quorum_stage_snd_replica_state (rs : ShardReplicaSet) (env : UpdateEnv) (wait : Bool) :
    ((rs.quorum_stage env wait).2).replica_state = rs.replica_state := by
  simp only [ShardReplicaSet.quorum_stage]
  split
  · split
    · split
      · exact (handle_failed_replicas_fields _ _ _).1
      · exact (handle_failed_replicas_fields _ _ _).1
    · exact (handle_failed_replicas_fields _ _ _).1
  · rfl

theorem quorum_stage_of_miss (rs : ShardReplicaSet) (env : UpdateEnv) (wait : Bool)
    (hq : (successes_of (rs.all_results env wait)).length <
      min rs.write_consistency_factor (rs.all_results env wait).length) :
    rs.quorum_stage env wait = (none, rs) := by
  simp only [ShardReplicaSet.quorum_stage]
  rw [if_neg (by omega)]

theorem quorum_stage_met_no_timeout (rs : ShardReplicaSet) (env : UpdateEnv) (wait : Bool)
    (hq : min rs.write_consistency_factor (rs.all_results env wait).length ≤
      (successes_of (rs.all_results env wait)).length)
    (hnt : (wait &&
        (rs.handle_failed_replicas (failures_of (rs.all_results env wait)) rs.replica_state).1 &&
        !(failures_of (rs.all_results env wait)).isEmpty) = false ∨
      env.wait_for
        (deactivation_check ((failures_of (rs.all_results env wait)).map (fun pe => pe.1)))
        DEFAULT_SHARD_DEACTIVATION_TIMEOUT = true) :
    rs.quorum_stage env wait =
      (none,
       (rs.handle_failed_replicas (failures_of (rs.all_results env wait)) rs.replica_state).2) := by
  simp only [ShardReplicaSet.quorum_stage]
  rw [if_pos hq]
  rcases hnt with h | h
  · rw [if_neg (by simp [h])]
  · by_cases h2 : (wait &&
        (rs.handle_failed_replicas (failures_of (rs.all_results env wait)) rs.replica_state).1 &&
        !(failures_of (rs.all_results env wait)).isEmpty) = true
    · rw [if_pos h2, if_pos h]
    · rw [if_neg h2]

theorem quorum_stage_met_timeout (rs : ShardReplicaSet) (env : UpdateEnv) (wait : Bool)
    (hq : min rs.write_consistency_factor (rs.all_results env wait).length ≤
      (successes_of (rs.all_results env wait)).length)
    (hcond : (wait &&
        (rs.handle_failed_replicas (failures_of (rs.all_results env wait)) rs.replica_state).1 &&
        !(failures_of (rs.all_results env wait)).isEmpty) = true)
    (htmo : env.wait_for
        (deactivation_check ((failures_of (rs.all_results env wait)).map (fun pe => pe.1)))
        DEFAULT_SHARD_DEACTIVATION_TIMEOUT = false) :
    rs.quorum_stage env wait =
      (some (CollectionError.service_error
          (deactivationTimeoutMsg ++ failure_error_of (failures_of (rs.all_results env wait)))),
       (rs.handle_failed_replicas (failures_of (rs.all_results env wait)) rs.replica_state).2) := by
  simp only [ShardReplicaSet.quorum_stage]
  rw [if_pos hq, if_pos hcond, if_neg (by simp [htmo])]

theorem finalize_snd (rs2 : ShardReplicaSet) (S : List (PeerId × UpdateResult))
    (F : List (PeerId × CollectionError)) (m : Nat) :
    (ShardReplicaSet.finalize rs2 S F m).2 = rs2 := by
  unfold ShardReplicaSet.finalize
  split
  · split <;> rfl
  · split
    · rfl
    · split <;> rfl

theorem finalize_ok_any (rs2 : ShardReplicaSet) (S : List (PeerId × UpdateResult))
    (F : List (PeerId × CollectionError)) (m : Nat) (r : UpdateResult)
    (h : (ShardReplicaSet.finalize rs2 S F m).1 = Except.ok r) :
    S.any (fun pr => rs2.peer_is_active pr.1) = true := by
  unfold ShardReplicaSet.finalize at h
  split at h
  · split at h <;> simp at h
  · rename_i hq
    split at h
    · simp at h
    · rename_i hany
      simpa using hany

theorem finalize_quorum_miss (rs2 : ShardReplicaSet) (S : List (PeerId × UpdateResult))
    (F : List (PeerId × CollectionError)) (m : Nat) (p : PeerId) (e : CollectionError)
    (hFh : F.head? = some (p, e)) (hlt : S.length < m) :
    (ShardReplicaSet.finalize rs2 S F m).1 = Except.error e := by
  cases F with
  | nil => cases hFh
  | cons hd tl =>
    obtain ⟨p0, e0⟩ := hd
    rw [List.head?_cons, Option.some.injEq, Prod.mk.injEq] at hFh
    obtain ⟨hp, he⟩ := hFh
    subst hp
    subst he
    unfold ShardReplicaSet.finalize
    rw [if_pos (by simp [hlt])]

theorem finalize_no_active_err (rs2 : ShardReplicaSet) (S : List (PeerId × UpdateResult))
    (F : List (PeerId × CollectionError)) (m : Nat)
    (hq : m ≤ S.length)
    (hnone : S.any (fun pr => rs2.peer_is_active pr.1) = false) :
    (ShardReplicaSet.finalize rs2 S F m).1 =
      Except.error (CollectionError.service_error (noActiveSuccessMsg ++ failure_error_of F)) := by
  unfold ShardReplicaSet.finalize
  rw [if_neg (by simp [Nat.not_lt.mpr hq]), if_pos (by simp [hnone])]

theorem update_of_guard_false (rs : ShardReplicaSet) (env : UpdateEnv) (wait : Bool)
    (h : rs.update_calls wait ≠ []) :
    rs.update env wait = rs.update_collect env wait := by
  unfold ShardReplicaSet.update
  rw [if_neg (fun hg => h ((update_guard_iff rs wait).mp hg))]

theorem update_of_guard_true (rs : ShardReplicaSet) (env : UpdateEnv) (wait : Bool)
    (h : rs.update_calls wait = []) :
    rs.update env wait =
      (Except.error (CollectionError.service_error noActiveReplicaMsg), rs) := by
  unfold ShardReplicaSet.update
  rw [if_pos ((update_guard_iff rs wait).mpr h)]

theorem update_collect_some (rs : ShardReplicaSet) (env : UpdateEnv) (wait : Bool)
    (e : CollectionError) (rs2 : ShardReplicaSet)
    (h : rs.quorum_stage env wait = (some e, rs2)) :
    rs.update_collect env wait = (Except.error e, rs2) := by
  simp only [ShardReplicaSet.update_collect, h]

theorem update_collect_none (rs : ShardReplicaSet) (env : UpdateEnv) (wait : Bool)
    (rs2 : ShardReplicaSet)
    (h : rs.quorum_stage env wait = (none, rs2)) :
    rs.update_collect env wait =
      rs2.finalize (successes_of (rs.all_results env wait))
        (failures_of (rs.all_results env wait))
        (min rs.write_consistency_factor (rs.all_results env wait).length) := by
  simp only [ShardReplicaSet.update_collect, h]

/-! ## Claim theorems: the update dispatcher -/

/-- C1: when `update` returns `Ok`, some success came from a peer whose
replica state is `Active`; and when the quorum was met, the targets were
non-empty, no success came from an `Active` peer, and the deactivation
wait did not time out, `update` fails with the "no Active replica
succeeded" service error even though the success count met the
threshold. -/
theorem update_active_success_required (rs : ShardReplicaSet) (env : UpdateEnv) (wait : Bool) :
    (∀ r : UpdateResult, (rs.update env wait).1 = Except.ok r →
       (successes_of (rs.all_results env wait)).any
         (fun pr => rs.replica_state.get_peer_state pr.1 == some ReplicaState.Active) = true) ∧
    (rs.update_calls wait ≠ [] →
     rs.minimal_success_count wait ≤ (successes_of (rs.all_results env wait)).length →
     (successes_of (rs.all_results env wait)).all
        (fun pr => !(rs.replica_state.get_peer_state pr.1 == some ReplicaState.Active)) = true →
     ((wait &&
        (rs.handle_failed_replicas (failures_of (rs.all_results env wait)) rs.replica_state).1 &&
        !(failures_of (rs.all_results env wait)).isEmpty) = false ∨
      env.wait_for
        (deactivation_check ((failures_of (rs.all_results env wait)).map (fun pe => pe.1)))
        DEFAULT_SHARD_DEACTIVATION_TIMEOUT = true) →
     (rs.update env wait).1 =
       Except.error (CollectionError.service_error
         (noActiveSuccessMsg ++ failure_error_of (failures_of (rs.all_results env wait))))) := by
  constructor
  · intro r h
    by_cases hcal : rs.update_calls wait = []
    · rw [update_of_guard_true rs env wait hcal] at h
      simp at h
    · rw [update_of_guard_false rs env wait hcal] at h
      rcases hqs : rs.quorum_stage env wait with ⟨o, rs2⟩
      cases o with
      | some e =>
        rw [update_collect_some rs env wait e rs2 hqs] at h
        simp at h
      | none =>
        rw [update_collect_none rs env wait rs2 hqs] at h
        have hany := finalize_ok_any rs2 _ _ _ r h
        have hrs2 : rs2.replica_state = rs.replica_state := by
          have hsnd := quorum_stage_snd_replica_state rs env wait
          rw [hqs] at hsnd
          exact hsnd
        rw [List.any_eq_true] at hany
        obtain ⟨pr, hmem, hact⟩ := hany
        rw [List.any_eq_true]
        refine ⟨pr, hmem, ?_⟩
        have hps := ((peer_is_active_eq_true_iff rs2 pr.1).mp hact).1
        unfold ShardReplicaSet.peer_state at hps
        rw [hrs2] at hps
        simp [hps]
  · intro hcal hq hall hnt
    rw [update_of_guard_false rs env wait hcal]
    have hlen := all_results_length rs env wait
    have hq2 : min rs.write_consistency_factor (rs.all_results env wait).length ≤
        (successes_of (rs.all_results env wait)).length := by
      simp only [ShardReplicaSet.minimal_success_count] at hq
      omega
    have hqs := quorum_stage_met_no_timeout rs env wait hq2 hnt
    rw [update_collect_none rs env wait _ hqs]
    apply finalize_no_active_err _ _ _ _ hq2
    have hrs2 : ((rs.handle_failed_replicas (failures_of (rs.all_results env wait))
        rs.replica_state).2).replica_state = rs.replica_state :=
      (handle_failed_replicas_fields _ _ _).1
    rw [Bool.eq_false_iff]
    intro hany
    rw [List.any_eq_true] at hany
    obtain ⟨pr, hmem, hact⟩ := hany
    have hps := ((peer_is_active_eq_true_iff _ pr.1).mp hact).1
    unfold ShardReplicaSet.peer_state at hps
    rw [hrs2] at hps
    have hflag := List.all_eq_true.mp hall pr hmem
    rw [hps] at hflag
    simp at hflag

/-- Witness for C1: with a single `Active` local replica a successful
update has an `Active` success; in spec seed scenario 5 (successes only
on `Partial` and `Initializing`, the `Active` peer failing) the update
fails with the "no Active replica succeeded" service error. -/
theorem update_active_success_required_witness :
    (successes_of (rsC1b.all_results envC1b true)).any
      (fun pr => rsC1b.replica_state.get_peer_state pr.1 == some ReplicaState.Active) = true ∧
    (rsC1.update envC1 true).1 =
      Except.error (CollectionError.service_error
        (noActiveSuccessMsg ++ failure_error_of (failures_of (rsC1.all_results envC1 true)))) := by
  constructor
  · exact (update_active_success_required rsC1b envC1b true).1 5 rfl
  · exact (update_active_success_required rsC1 envC1 true).2 (by decide) (by decide)
      (by decide) (Or.inr rfl)

/-- C2: the effective success threshold is exactly
`min(write_consistency_factor, n)` for `n` dispatched targets, and when
the success count is below it while at least one failure exists, `update`
returns the first failure's error verbatim. -/
theorem update_quorum_miss_first_error (rs : ShardReplicaSet) (env : UpdateEnv) (wait : Bool)
    (p : PeerId) (e : CollectionError)
    (hq : (successes_of (rs.all_results env wait)).length < rs.minimal_success_count wait)
    (hhead : (failures_of (rs.all_results env wait)).head? = some (p, e)) :
    rs.minimal_success_count wait =
      min rs.write_consistency_factor (rs.update_calls wait).length ∧
    (rs.update env wait).1 = Except.error e := by
  refine ⟨rfl, ?_⟩
  have hlen := all_results_length rs env wait
  have hq2 : (successes_of (rs.all_results env wait)).length <
      min rs.write_consistency_factor (rs.all_results env wait).length := by
    simp only [ShardReplicaSet.minimal_success_count] at hq
    omega
  have hcal : rs.update_calls wait ≠ [] := by
    intro hnil
    rw [hnil] at hlen
    simp only [List.length_nil] at hlen
    omega
  rw [update_of_guard_false rs env wait hcal,
    update_collect_none rs env wait rs (quorum_stage_of_miss rs env wait hq2)]
  exact finalize_quorum_miss rs _ _ _ p e hhead hq2

/-- Witness for C2: three `Active` replicas with `W = 2` all failing;
the update returns the local peer's error `replica_error true 11`
unwrapped. -/
theorem update_quorum_miss_first_error_witness :
    rsC2.minimal_success_count true =
      min rsC2.write_consistency_factor (rsC2.update_calls true).length ∧
    (rsC2.update envC2 true).1 =
      Except.error (CollectionError.replica_error true 11) :=
  update_quorum_miss_first_error rsC2 envC2 true 1 (CollectionError.replica_error true 11)
    (by decide) (by decide)

/-- C10: when the quorum is missed, `update` leaves the replica set
untouched — in particular `locally_disabled` is unchanged, because
`handle_failed_replicas` only runs on the quorum-met branch. -/
theorem update_quorum_miss_frame (rs : ShardReplicaSet) (env : UpdateEnv) (wait : Bool)
    (hq : (successes_of (rs.all_results env wait)).length < rs.minimal_success_count wait) :
    (rs.update env wait).2 = rs ∧
    (rs.update env wait).2.locally_disabled = rs.locally_disabled := by
  have hlen := all_results_length rs env wait
  have hq2 : (successes_of (rs.all_results env wait)).length <
      min rs.write_consistency_factor (rs.all_results env wait).length := by
    simp only [ShardReplicaSet.minimal_success_count] at hq
    omega
  by_cases hcal : rs.update_calls wait = []
  · rw [update_of_guard_true rs env wait hcal]
    exact ⟨rfl, rfl⟩
  · rw [update_of_guard_false rs env wait hcal,
      update_collect_none rs env wait rs (quorum_stage_of_miss rs env wait hq2),
      finalize_snd]
    exact ⟨rfl, rfl⟩

/-- Witness for C10: the all-fail quorum-miss scenario leaves the replica
set exactly as it was. -/
theorem update_quorum_miss_frame_witness :
    (rsC10.update envC10 true).2 = rsC10 ∧
    (rsC10.update envC10 true).2.locally_disabled = rsC10.locally_disabled :=
  update_quorum_miss_frame rsC10 envC10 true (by decide)

/-- C3 counterexample: in `rsC3` the remote peer 2 is in `Listener` state
yet is dispatched with the caller's `wait = true`, refuting "every target
whose state is Listener is dispatched with wait = false". -/
theorem listener_remote_dispatched_with_wait :
    rsC3.peer_state 2 = some ReplicaState.Listener ∧
    (2, true) ∈ rsC3.update_calls true ∧
    ¬((2, false) ∈ rsC3.update_calls true) := by
  decide

/-- C3 (amended): only the local replica is subject to the `Listener`
override — a dispatched call `(p, w)` carries `w = false` exactly when
`p` is the local peer in `Listener` state, and the caller's `wait`
otherwise; remote targets always receive the caller's `wait` (assuming
the local peer is not also listed among the remotes). -/
theorem update_calls_listener_override_local_only (rs : ShardReplicaSet) (wait : Bool)
    (p : PeerId) (w : Bool)
    (hnr : rs.this_peer_id ∉ rs.remotes)
    (hmem : (p, w) ∈ rs.update_calls wait) :
    w = if p = rs.this_peer_id ∧ rs.peer_state p = some ReplicaState.Listener then false
        else wait := by
  unfold ShardReplicaSet.update_calls at hmem
  rcases List.mem_append.mp hmem with hL | hR
  · split at hL
    · rename_i hcond
      simp only [List.mem_singleton, Prod.mk.injEq] at hL
      obtain ⟨hp, hw⟩ := hL
      by_cases hls : rs.peer_state p = some ReplicaState.Listener
      · have hcnd : p = rs.this_peer_id ∧ rs.peer_state p = some ReplicaState.Listener :=
          ⟨hp, hls⟩
        rw [if_pos hcnd, hw]
        have hls2 : rs.peer_state rs.this_peer_id = some ReplicaState.Listener := hp ▸ hls
        simp [hls2]
      · have hcnd : ¬(p = rs.this_peer_id ∧ rs.peer_state p = some ReplicaState.Listener) :=
          fun hc => hls hc.2
        rw [if_neg hcnd, hw]
        have hls2 : rs.peer_state rs.this_peer_id ≠ some ReplicaState.Listener := by
          rw [← hp]
          exact hls
        simp [hls2, beq_iff_eq]
    · simp at hL
  · rw [List.mem_map] at hR
    obtain ⟨q, hqmem, hqeq⟩ := hR
    rw [Prod.mk.injEq] at hqeq
    obtain ⟨hp, hw⟩ := hqeq
    have hpr : p ∈ rs.remotes := hp ▸ (List.mem_filter.mp hqmem).1
    have hcnd : ¬(p = rs.this_peer_id ∧ rs.peer_state p = some ReplicaState.Listener) := by
      intro hc
      rw [hc.1] at hpr
      exact hnr hpr
    rw [if_neg hcnd]
    exact hw.symm

/-- Witness for C3 (amended): the `Listener` remote of `rsC3` is
dispatched with the caller's `wait = true`. -/
theorem update_calls_listener_override_local_only_witness :
    true = if 2 = rsC3.this_peer_id ∧ rsC3.peer_state 2 = some ReplicaState.Listener then false
           else true :=
  update_calls_listener_override_local_only rsC3 true 2 true (by decide) (by decide)

/-- C4: on the quorum-met branch with `wait`, a forced deactivation wait
and non-empty failures, `update` blocks through `wait_for` on the
predicate "every failing peer is not `Active`" (an absent peer counts as
satisfied) with the 30-second `DEFAULT_SHARD_DEACTIVATION_TIMEOUT`, and
when the wait reports timeout the call fails with the deactivation
timeout service error instead of the successful result. -/
theorem update_deactivation_timeout (rs : ShardReplicaSet) (env : UpdateEnv) (wait : Bool)
    (state : ReplicaSetState)
    (hcal : rs.update_calls wait ≠ [])
    (hq : rs.minimal_success_count wait ≤ (successes_of (rs.all_results env wait)).length)
    (hw : wait = true)
    (hwfd : (rs.handle_failed_replicas (failures_of (rs.all_results env wait))
      rs.replica_state).1 = true)
    (hf : (failures_of (rs.all_results env wait)).isEmpty = false)
    (htmo : env.wait_for
        (deactivation_check ((failures_of (rs.all_results env wait)).map (fun pe => pe.1)))
        DEFAULT_SHARD_DEACTIVATION_TIMEOUT = false) :
    (rs.update env wait).1 = Except.error (CollectionError.service_error
        (deactivationTimeoutMsg ++ failure_error_of (failures_of (rs.all_results env wait)))) ∧
    DEFAULT_SHARD_DEACTIVATION_TIMEOUT = 30 ∧
    (deactivation_check ((failures_of (rs.all_results env wait)).map (fun pe => pe.1))
        state = true ↔
      ∀ q ∈ (failures_of (rs.all_results env wait)).map (fun pe => pe.1),
        state.get_peer_state q ≠ some ReplicaState.Active) := by
  refine ⟨?_, rfl, ?_⟩
  · have hlen := all_results_length rs env wait
    have hq2 : min rs.write_consistency_factor (rs.all_results env wait).length ≤
        (successes_of (rs.all_results env wait)).length := by
      simp only [ShardReplicaSet.minimal_success_count] at hq
      omega
    have hcond : (wait &&
        (rs.handle_failed_replicas (failures_of (rs.all_results env wait)) rs.replica_state).1 &&
        !(failures_of (rs.all_results env wait)).isEmpty) = true := by
      rw [hwfd, hf, hw]
      decide
    rw [update_of_guard_false rs env wait hcal,
      update_collect_some rs env wait _ _ (quorum_stage_met_timeout rs env wait hq2 hcond htmo)]
  · unfold deactivation_check
    rw [List.all_eq_true]
    constructor
    · intro h q hqmem
      have hval := h q hqmem
      cases hgs : state.get_peer_state q with
      | none => simp
      | some st =>
        rw [hgs] at hval
        simp at hval
        simp [hval]
    · intro h q hqmem
      have hval := h q hqmem
      cases hgs : state.get_peer_state q with
      | none => simp
      | some st =>
        rw [hgs] at hval
        simp at hval
        simp [bne_iff_ne, hval]

/-- Witness for C4: spec seed scenario 6 — three `Active` replicas with
one transient failure and a `wait_for` that never observes deactivation —
fails with the timeout service error. -/
theorem update_deactivation_timeout_witness :
    (rsC4.update envC4 true).1 = Except.error (CollectionError.service_error
        (deactivationTimeoutMsg ++ failure_error_of (failures_of (rsC4.all_results envC4 true)))) ∧
    DEFAULT_SHARD_DEACTIVATION_TIMEOUT = 30 ∧
    (deactivation_check ((failures_of (rsC4.all_results envC4 true)).map (fun pe => pe.1))
        rsC4.replica_state = true ↔
      ∀ q ∈ (failures_of (rsC4.all_results envC4 true)).map (fun pe => pe.1),
        rsC4.replica_state.get_peer_state q ≠ some ReplicaState.Active) :=
  update_deactivation_timeout rsC4 envC4 true rsC4.replica_state (by decide) (by decide) rfl
    (by decide) (by decide) rfl

/-- C5: `handle_failed_replicas` skips failing peers that are absent from
the state snapshot or whose state is neither `Active` nor `Initializing`
(they are not locally disabled), disables every remaining failing peer,
returns `true` iff some non-skipped failing peer has a transient error or
is `Initializing`, and leaves the replica-state table unchanged. -/
theorem handle_failed_replicas_characterization (rs : ShardReplicaSet)
    (failures : List (PeerId × CollectionError)) (state : ReplicaSetState) (p : PeerId) :
    (rs.handle_failed_replicas failures state).1 = failures.any (spec_forces_wait state) ∧
    (rs.handle_failed_replicas failures state).2.is_locally_disabled p =
      (rs.is_locally_disabled p ||
        failures.any (fun pe => p == pe.1 && spec_disables state pe)) ∧
    (rs.handle_failed_replicas failures state).2.replica_state = rs.replica_state :=
  ⟨handle_failed_replicas_wait_eq failures rs state,
   handle_failed_replicas_disabled_eq failures rs state p,
   (handle_failed_replicas_fields failures rs state).1⟩

/-- C6: leader selection — `Weak` returns this peer; `Medium` returns the
maximum `PeerId` among peers that are `Active` and not locally disabled;
`Strong` returns the maximum `PeerId` over all replica-set members; each
coordinated ordering returns `none` exactly when no candidate exists. -/
theorem leader_peer_for_update_characterization (rs : ShardReplicaSet) (p : PeerId) :
    rs.leader_peer_for_update WriteOrdering.Weak = some rs.this_peer_id ∧
    (rs.leader_peer_for_update WriteOrdering.Medium = some p ↔
      rs.peer_is_active p = true ∧ ∀ q : PeerId, rs.peer_is_active q = true → q ≤ p) ∧
    (rs.leader_peer_for_update WriteOrdering.Strong = some p ↔
      p ∈ rs.replica_state.peers.map (fun pr => pr.1) ∧
      ∀ q ∈ rs.replica_state.peers.map (fun pr => pr.1), q ≤ p) ∧
    (rs.leader_peer_for_update WriteOrdering.Medium = none ↔
      ∀ q : PeerId, rs.peer_is_active q = false) ∧
    (rs.leader_peer_for_update WriteOrdering.Strong = none ↔
      rs.replica_state.peers = []) := by
  refine ⟨rfl, ?_, ?_, ?_, ?_⟩
  · show rs.highest_alive_replica_peer_id = some p ↔ _
    unfold ShardReplicaSet.highest_alive_replica_peer_id
    rw [nat_max?_eq_some_iff]
    constructor
    · rintro ⟨hmem, hub⟩
      have hact := (List.mem_filter.mp hmem).2
      refine ⟨hact, fun q hq => ?_⟩
      apply hub
      rw [List.mem_filter]
      exact ⟨get_peer_state_mem_keys _ _ _ ((peer_is_active_eq_true_iff rs q).mp hq).1, hq⟩
    · rintro ⟨hact, hub⟩
      refine ⟨?_, fun b hb => hub b (List.mem_filter.mp hb).2⟩
      rw [List.mem_filter]
      exact ⟨get_peer_state_mem_keys _ _ _ ((peer_is_active_eq_true_iff rs p).mp hact).1, hact⟩
  · show rs.highest_replica_peer_id = some p ↔ _
    unfold ShardReplicaSet.highest_replica_peer_id
    rw [nat_max?_eq_some_iff]
  · show rs.highest_alive_replica_peer_id = none ↔ _
    unfold ShardReplicaSet.highest_alive_replica_peer_id
    rw [List.max?_eq_none_iff]
    constructor
    · intro hnil q
      by_contra hq
      rw [Bool.not_eq_false] at hq
      have hmem : q ∈ (rs.replica_state.peers.map (fun pr => pr.1)).filter
          (fun peer_id => rs.peer_is_active peer_id) := by
        rw [List.mem_filter]
        exact ⟨get_peer_state_mem_keys _ _ _ ((peer_is_active_eq_true_iff rs q).mp hq).1, hq⟩
      rw [hnil] at hmem
      cases hmem
    · intro hall
      apply List.eq_nil_iff_forall_not_mem.mpr
      intro q hmem
      have hq := (List.mem_filter.mp hmem).2
      rw [hall q] at hq
      cases hq
  · show rs.highest_replica_peer_id = none ↔ _
    unfold ShardReplicaSet.highest_replica_peer_id
    rw [List.max?_eq_none_iff]
    constructor
    · intro h
      exact List.map_eq_nil_iff.mp h
    · intro h
      rw [h]
      rfl

/-- Witness for C6: the repo test scenario — `Weak` picks this peer,
`Medium` picks the highest alive peer 4, `Strong` picks 5 so equals
`some 4` is refutable there; instantiated at `p = 4`. -/
theorem leader_peer_for_update_characterization_witness :
    rsC6.leader_peer_for_update WriteOrdering.Weak = some rsC6.this_peer_id ∧
    (rsC6.leader_peer_for_update WriteOrdering.Medium = some 4 ↔
      rsC6.peer_is_active 4 = true ∧ ∀ q : PeerId, rsC6.peer_is_active q = true → q ≤ 4) ∧
    (rsC6.leader_peer_for_update WriteOrdering.Strong = some 4 ↔
      4 ∈ rsC6.replica_state.peers.map (fun pr => pr.1) ∧
      ∀ q ∈ rsC6.replica_state.peers.map (fun pr => pr.1), q ≤ 4) ∧
    (rsC6.leader_peer_for_update WriteOrdering.Medium = none ↔
      ∀ q : PeerId, rsC6.peer_is_active q = false) ∧
    (rsC6.leader_peer_for_update WriteOrdering.Strong = none ↔
      rsC6.replica_state.peers = []) :=
  leader_peer_for_update_characterization rsC6 4

/-- C7: a peer is an eligible update target iff its state is one of
`Active`, `Initializing`, `Partial`, `Listener` and it is not locally
disabled; and when no eligible target exists `update` fails with the "has
no active replica" service error without consulting any replica (the
result is the same under any environment). -/
theorem update_no_eligible_targets (rs : ShardReplicaSet) (env env2 : UpdateEnv)
    (wait : Bool) (p : PeerId)
    (h : rs.update_calls wait = []) :
    (rs.peer_is_active_or_pending p = true ↔
      ((rs.peer_state p = some ReplicaState.Active ∨
        rs.peer_state p = some ReplicaState.Initializing ∨
        rs.peer_state p = some ReplicaState.Partial ∨
        rs.peer_state p = some ReplicaState.Listener) ∧
       rs.is_locally_disabled p = false)) ∧
    (rs.update env wait).1 = Except.error (CollectionError.service_error noActiveReplicaMsg) ∧
    rs.update env wait = rs.update env2 wait := by
  refine ⟨?_, ?_, ?_⟩
  · unfold ShardReplicaSet.peer_is_active_or_pending
    cases hs : rs.peer_state p with
    | none => simp [hs]
    | some st => cases st <;> simp [hs]
  · rw [update_of_guard_true rs env wait h]
  · rw [update_of_guard_true rs env wait h, update_of_guard_true rs env2 wait h]

/-- Witness for C7: `rsC7` (no local shard, a single `Dead` remote) has
no eligible target; `update` fails identically under two different
environments. -/
theorem update_no_eligible_targets_witness :
    (rsC7.peer_is_active_or_pending 2 = true ↔
      ((rsC7.peer_state 2 = some ReplicaState.Active ∨
        rsC7.peer_state 2 = some ReplicaState.Initializing ∨
        rsC7.peer_state 2 = some ReplicaState.Partial ∨
        rsC7.peer_state 2 = some ReplicaState.Listener) ∧
       rsC7.is_locally_disabled 2 = false)) ∧
    (rsC7.update envC7 true).1 = Except.error (CollectionError.service_error noActiveReplicaMsg) ∧
    rsC7.update envC7 true = rsC7.update envC7b true :=
  update_no_eligible_targets rsC7 envC7 envC7b true 2 (by decide)

end Qdrant
